import Mathlib

/-!
Verification of the NegaBot API request-handling and persistence pipeline.

The development shallowly embeds the repository's Python source:
`model.py` (`NegaBotModel.predict` / `batch_predict`), `database.py`
(`PredictionLogger` and its convenience wrappers) and `api.py` (the
endpoint handlers and pydantic request validation).

Modelling conventions:
- The external torch classifier is an environment parameter
  `PyModel : String → Option TorchOutput`; `none` models an invocation
  fault (a raised exception inside `model.predict`).
- Machine floats are modelled by exact rationals; Python `round(x, n)` is
  round-half-even at `n` decimal digits (`pyRound`).
- The SQLite `predictions` table is a `List PredictionRow`; `created_at`
  (DATETIME DEFAULT CURRENT_TIMESTAMP) is modelled by a monotone insertion
  counter, and `ORDER BY created_at DESC` by sorting with `newerFirst`.
- The wall clock `datetime.now().isoformat()` is threaded as a `now : String`
  parameter.
- A Python `dict` metadata payload is `Meta = List (String × String)`; the
  `json.dumps`/`json.loads` round trip of the json library is identified
  with the identity on well-formed payloads, and Python truthiness
  (`if metadata:`) is `¬ (m = [] ∨ m = none)`.
- Exceptions are `Except String`; a FastAPI endpoint result is the triple
  (HTTP status, response body if any, resulting store).
-/

/-! ## Python rounding on rationals -/

/-- Round a rational to the nearest integer, ties to even
(the rounding mode of Python's built-in `round`). -/
def roundHalfEven (q : ℚ) : ℤ :=
  if q - ⌊q⌋ < 1/2 then ⌊q⌋
  else if 1/2 < q - ⌊q⌋ then ⌊q⌋ + 1
  else if ⌊q⌋ % 2 = 0 then ⌊q⌋ else ⌊q⌋ + 1

/-- Python `round(q, n)`: round-half-even at `n` decimal digits. -/
def pyRound (q : ℚ) (n : ℕ) : ℚ :=
  (roundHalfEven (q * 10 ^ n) : ℚ) / 10 ^ n

/-! ## Data model -/

/-- A caller-supplied metadata payload: a Python `dict` of serializable data,
modelled as a flat key-value list. -/
abbrev Meta := List (String × String)

/-- Raw output of the external torch model for one input: the two logits and
their softmax probabilities (`model(**inputs).logits` and
`torch.softmax(logits, dim=1)` in `model.py`). -/
structure TorchOutput where
  logit_pos : ℚ
  logit_neg : ℚ
  prob_pos : ℚ
  prob_neg : ℚ
deriving DecidableEq

/-- The external classifier capability: `none` models a raised exception
inside the torch invocation. -/
abbrev PyModel := String → Option TorchOutput

/-- The dictionary returned by `NegaBotModel.predict` in `model.py`. -/
structure ClassifierResult where
  text : String
  sentiment : String
  confidence : ℚ
  predicted_class : ℕ
  prob_positive : ℚ
  prob_negative : ℚ
deriving DecidableEq

/-- A row of the SQLite `predictions` table (`database.py`). `created_at` is
the store-assigned monotone insertion counter standing for
`DATETIME DEFAULT CURRENT_TIMESTAMP`. -/
structure PredictionRow where
  id : ℕ
  text : String
  sentiment : String
  confidence : ℚ
  predicted_class : ℕ
  timestamp : String
  metadata : Option Meta
  created_at : ℕ
deriving DecidableEq

/-! ## ClassifierGateway: `model.py` -/

/-- `NegaBotModel.predict` (`model.py`, lines 41-81): tokenize, run the
model, take `argmax` of the logits (ties to the lower index, as
`torch.argmax`), read the confidence at the predicted index, map class 1 to
"Negative" and class 0 to "Positive", and round the reported numbers to 4
decimals. `none` when the torch invocation raises. -/
def NegaBotModel.predict (m : PyModel) (text : String) : Option ClassifierResult :=
  match m text with
  | none => none
  | some out =>
    let predicted_class : ℕ := if out.logit_pos < out.logit_neg then 1 else 0
    let confidence : ℚ := if predicted_class = 1 then out.prob_neg else out.prob_pos
    let sentiment : String := if predicted_class = 1 then "Negative" else "Positive"
    some { text := text
           sentiment := sentiment
           confidence := pyRound confidence 4
           predicted_class := predicted_class
           prob_positive := pyRound out.prob_pos 4
           prob_negative := pyRound out.prob_neg 4 }

/-- `NegaBotModel.batch_predict` (`model.py`, lines 83-96): repeated single
calls in input order; a raised exception in any single call aborts the
whole loop with no result list. -/
def NegaBotModel.batch_predict (m : PyModel) : List String → Option (List ClassifierResult)
  | [] => some []
  | t :: ts =>
    match NegaBotModel.predict m t, NegaBotModel.batch_predict m ts with
    | some r, some rs => some (r :: rs)
    | _, _ => none

/-! ## PredictionStore: `database.py` -/

/-- `PredictionLogger.log_prediction` (`database.py`, lines 64-100): infer
`predicted_class` from the sentiment when not supplied, serialize the
metadata only when it is truthy (`json.dumps(metadata) if metadata else
None` — the empty dict is falsy and is stored as NULL), and append the row.
`id` is the auto-increment key and `created_at` the store-assigned
insertion counter. -/
def PredictionLogger.log_prediction (db : List PredictionRow)
    (text sentiment : String) (confidence : ℚ)
    (predicted_class : Option ℕ) (metadata : Option Meta) (now : String) :
    List PredictionRow :=
  let pc : ℕ := predicted_class.getD (if sentiment = "Negative" then 1 else 0)
  let storedMeta : Option Meta :=
    match metadata with
    | some m => if m = [] then none else some m
    | none => none
  db ++ [{ id := db.length + 1
           text := text
           sentiment := sentiment
           confidence := confidence
           predicted_class := pc
           timestamp := now
           metadata := storedMeta
           created_at := db.length }]

/-- The module-level convenience wrapper `log_prediction` (`database.py`,
lines 243-246), used by `api.py`: it never passes `predicted_class`. -/
def log_prediction (db : List PredictionRow) (text sentiment : String)
    (confidence : ℚ) (metadata : Option Meta) (now : String) : List PredictionRow :=
  PredictionLogger.log_prediction db text sentiment confidence none metadata now

/-- The read order `ORDER BY created_at DESC`: `a` comes no later than `b`
when `a` is at least as new. -/
def newerFirst (a b : PredictionRow) : Prop := b.created_at ≤ a.created_at

instance : DecidableRel newerFirst := fun a b =>
  inferInstanceAs (Decidable (b.created_at ≤ a.created_at))

instance : IsTotal PredictionRow newerFirst :=
  ⟨fun a b => le_total b.created_at a.created_at⟩

instance : IsTrans PredictionRow newerFirst :=
  ⟨fun _ _ _ h1 h2 => le_trans h2 h1⟩

/-- SQLite `LIMIT l`: a negative limit means no limit; otherwise at most
`l` rows. -/
def sqlLimit (rows : List PredictionRow) (l : ℤ) : List PredictionRow :=
  if l < 0 then rows else rows.take l.toNat

/-- `PredictionLogger.get_all_predictions` (`database.py`, lines 102-146)
without the exception path: all rows ordered by `created_at` descending;
the `LIMIT` clause is appended only when the limit is truthy (`if limit:`
— a supplied limit of `0` is falsy and yields the full list). -/
def PredictionLogger.get_all_predictions (db : List PredictionRow)
    (limit : Option ℤ) : List PredictionRow :=
  let sorted := List.insertionSort newerFirst db
  match limit with
  | some l => if l = 0 then sorted else sqlLimit sorted l
  | none => sorted

/-- `PredictionLogger.get_predictions_by_sentiment` (`database.py`, lines
148-189) without the exception path: rows with the requested sentiment,
ordered by `created_at` descending. -/
def PredictionLogger.get_predictions_by_sentiment (db : List PredictionRow)
    (sentiment : String) : List PredictionRow :=
  List.insertionSort newerFirst (db.filter (fun r => r.sentiment == sentiment))

/-- The module-level `get_all_predictions` used by `api.py`, together with
the `try/except` of the method body: a store read fault (`rawFetch` an
error) is caught and an empty list is returned (`database.py`, lines
144-146). -/
def db_get_all_predictions (rawFetch : Except String (List PredictionRow))
    (limit : Option ℤ) : Except String (List PredictionRow) :=
  match rawFetch with
  | .ok db => .ok (PredictionLogger.get_all_predictions db limit)
  | .error _ => .ok []

/-! ## API orchestration: `api.py` -/

/-- Body of `POST /predict` (`api.py`, `TweetRequest`, lines 26-28). -/
structure TweetRequest where
  text : String
  metadata : Option Meta
deriving DecidableEq

/-- The `TweetResponse` body (`api.py`, lines 30-37); the `probabilities`
dict is flattened into its two entries. -/
structure TweetResponse where
  text : String
  sentiment : String
  confidence : ℚ
  predicted_class : ℕ
  prob_positive : ℚ
  prob_negative : ℚ
  timestamp : String
deriving DecidableEq

/-- The `BatchTweetResponse` body (`api.py`, lines 43-46). -/
structure BatchTweetResponse where
  results : List TweetResponse
  total_processed : ℕ
  timestamp : String
deriving DecidableEq

/-- The `/stats` response dict (`api.py`, lines 198-220): on an empty
history the percentage keys are absent and a `message` key is present, so
both are optional here. `last_updated` is untracked opaque clock output. -/
structure StatsResponse where
  total_predictions : ℕ
  positive_count : ℕ
  negative_count : ℕ
  positive_percentage : Option ℚ
  negative_percentage : Option ℚ
  average_confidence : ℚ
  message : Option String
deriving DecidableEq

/-- Pydantic validation of `TweetRequest.text`:
`Field(..., min_length=1, max_length=1000)`. -/
def validateTweetRequest (req : TweetRequest) : Bool :=
  1 ≤ req.text.length && req.text.length ≤ 1000

/-- Pydantic validation of `BatchTweetRequest.tweets`:
`Field(..., min_items=1, max_items=50)` — the items themselves are plain
`str` with no per-item constraint. -/
def validateBatchRequest (tweets : List String) : Bool :=
  1 ≤ tweets.length && tweets.length ≤ 50

/-- Assemble a `TweetResponse` from a classifier result (`api.py`,
lines 111-118 and 156-163). -/
def mkTweetResponse (r : ClassifierResult) (now : String) : TweetResponse :=
  { text := r.text
    sentiment := r.sentiment
    confidence := r.confidence
    predicted_class := r.predicted_class
    prob_positive := r.prob_positive
    prob_negative := r.prob_negative
    timestamp := now }

/-- The logging loop of the batch handler (`api.py`, lines 155-172): one
store append per classifier result, in order. -/
def logAll (db : List PredictionRow) (results : List ClassifierResult)
    (metadata : Option Meta) (now : String) : List PredictionRow :=
  match results with
  | [] => db
  | r :: rs => logAll (log_prediction db r.text r.sentiment r.confidence metadata now) rs metadata now

/-- `predict_sentiment` (`api.py`, lines 92-133), after pydantic
validation. The whole body runs inside `try`; `except Exception` catches
every raised exception — including the `HTTPException(503)` deliberately
raised when the model is not loaded, since `HTTPException` subclasses
`Exception` — and re-raises it as a 500. Result: (status, body, store). -/
def predict_sentiment (model : Option PyModel) (db : List PredictionRow)
    (req : TweetRequest) (now : String) :
    ℕ × Option TweetResponse × List PredictionRow :=
  let body : Except String (TweetResponse × List PredictionRow) :=
    match model with
    | none => .error "503: Model not loaded"
    | some m =>
      match NegaBotModel.predict m req.text with
      | none => .error "classifier invocation fault"
      | some result =>
        .ok (mkTweetResponse result now,
             log_prediction db req.text result.sentiment result.confidence req.metadata now)
  match body with
  | .ok (resp, db2) => (200, some resp, db2)
  | .error _ => (500, none, db)

/-- `POST /predict` end to end: pydantic validation (422 on failure, no
handler call), then `predict_sentiment`. -/
def predict_endpoint (model : Option PyModel) (db : List PredictionRow)
    (req : TweetRequest) (now : String) :
    ℕ × Option TweetResponse × List PredictionRow :=
  if validateTweetRequest req then predict_sentiment model db req now
  else (422, none, db)

/-- `batch_predict_sentiment` (`api.py`, lines 135-185), after pydantic
validation: classify all tweets first (`model.batch_predict`), then build
the responses and append one store record per result. As in the single
handler, the catch-all converts every raised exception — the 503 included
— into a 500. -/
def batch_predict_sentiment (model : Option PyModel) (db : List PredictionRow)
    (tweets : List String) (metadata : Option Meta) (now : String) :
    ℕ × Option BatchTweetResponse × List PredictionRow :=
  let body : Except String (BatchTweetResponse × List PredictionRow) :=
    match model with
    | none => .error "503: Model not loaded"
    | some m =>
      match NegaBotModel.batch_predict m tweets with
      | none => .error "classifier invocation fault"
      | some results =>
        let responses := results.map (fun r => mkTweetResponse r now)
        .ok ({ results := responses
               total_processed := responses.length
               timestamp := now },
             logAll db results metadata now)
  match body with
  | .ok (resp, db2) => (200, some resp, db2)
  | .error _ => (500, none, db)

/-- `POST /batch_predict` end to end: pydantic validation, then the
handler. -/
def batch_endpoint (model : Option PyModel) (db : List PredictionRow)
    (tweets : List String) (metadata : Option Meta) (now : String) :
    ℕ × Option BatchTweetResponse × List PredictionRow :=
  if validateBatchRequest tweets then batch_predict_sentiment model db tweets metadata now
  else (422, none, db)

/-- The stats computation of `get_prediction_stats` (`api.py`, lines
196-222) on the fetched history: the empty history short-circuits to the
all-zero dict without percentage keys; otherwise counts, percentages
rounded to 2 decimals and the mean confidence rounded to 4 decimals. -/
def statsOf (predictions : List PredictionRow) : StatsResponse :=
  if predictions.isEmpty then
    { total_predictions := 0
      positive_count := 0
      negative_count := 0
      positive_percentage := none
      negative_percentage := none
      average_confidence := 0
      message := some "No predictions found" }
  else
    let total := predictions.length
    let positive_count := (predictions.filter (fun p => p.sentiment == "Positive")).length
    let negative_count := total - positive_count
    let avg := ((predictions.map (fun p => p.confidence)).sum) / (total : ℚ)
    { total_predictions := total
      positive_count := positive_count
      negative_count := negative_count
      positive_percentage := some (pyRound ((positive_count : ℚ) / (total : ℚ) * 100) 2)
      negative_percentage := some (pyRound ((negative_count : ℚ) / (total : ℚ) * 100) 2)
      average_confidence := pyRound avg 4
      message := none }

/-- `GET /stats` (`api.py`, lines 187-226): read the history through
`get_all_predictions` (which never propagates a store fault) and compute
the snapshot; the 500 branch fires only if an exception escapes the read
or the arithmetic. -/
def get_prediction_stats (rawFetch : Except String (List PredictionRow)) :
    ℕ × Option StatsResponse :=
  match db_get_all_predictions rawFetch none with
  | .ok predictions => (200, some (statsOf predictions))
  | .error _ => (500, none)

/-! ## Concrete sample values used in closed evaluations -/

/-- A concrete stand-in for the loaded classifier: every text gets logits
(0, 1) and softmax probabilities (1/4, 3/4), i.e. class 1 ("Negative"). -/
def demoModel : PyModel := fun _ =>
  some { logit_pos := 0, logit_neg := 1, prob_pos := 1/4, prob_neg := 3/4 }

/-- A concrete positive stored row. -/
def sampleRow : PredictionRow :=
  { id := 1, text := "great product", sentiment := "Positive", confidence := 1/2,
    predicted_class := 0, timestamp := "t1", metadata := none, created_at := 0 }

/-- A concrete negative stored row, newer than `sampleRow`. -/
def sampleRow2 : PredictionRow :=
  { id := 2, text := "awful product", sentiment := "Negative", confidence := 3/4,
    predicted_class := 1, timestamp := "t2", metadata := none, created_at := 1 }

/-! ## The class/sentiment invariant -/

/-- The spec invariant on a response:
`predicted_class == 0 ⇔ sentiment == "Positive"` and
`predicted_class == 1 ⇔ sentiment == "Negative"`. -/
def classInvRespB (r : TweetResponse) : Bool :=
  (decide (r.predicted_class = 0) == decide (r.sentiment = "Positive")) &&
  (decide (r.predicted_class = 1) == decide (r.sentiment = "Negative"))

/-- The same invariant on a stored row. -/
def classInvRowB (r : PredictionRow) : Bool :=
  (decide (r.predicted_class = 0) == decide (r.sentiment = "Positive")) &&
  (decide (r.predicted_class = 1) == decide (r.sentiment = "Negative"))

/-! ## Rounding facts -/

theorem abs_roundHalfEven_sub_le (q : ℚ) : |(roundHalfEven q : ℚ) - q| ≤ 1/2 := by
  have h0 : (0 : ℚ) ≤ q - ⌊q⌋ := sub_nonneg.mpr (Int.floor_le q)
  have h1 : q - ⌊q⌋ < 1 := by
    have := Int.lt_floor_add_one q
    push_cast at this ⊢
    linarith
  unfold roundHalfEven
  split_ifs with hlt hgt hev
  · rw [abs_le]; constructor <;> linarith
  · rw [abs_le]; push_cast; constructor <;> linarith
  · rw [abs_le]; constructor <;> linarith
  · rw [abs_le]; push_cast; constructor <;> linarith

theorem abs_pyRound_sub_le (q : ℚ) (n : ℕ) : |pyRound q n - q| ≤ 1 / (2 * 10 ^ n) := by
  have hpow : (0 : ℚ) < 10 ^ n := by positivity
  have h := abs_roundHalfEven_sub_le (q * 10 ^ n)
  have hrw : pyRound q n - q = ((roundHalfEven (q * 10 ^ n) : ℚ) - q * 10 ^ n) / 10 ^ n := by
    unfold pyRound
    field_simp
    ring
  rw [hrw, abs_div, abs_of_pos hpow]
  rw [div_le_iff₀ hpow]
  calc |(roundHalfEven (q * 10 ^ n) : ℚ) - q * 10 ^ n| ≤ 1/2 := h
    _ = 1 / (2 * 10 ^ n) * 10 ^ n := by
        field_simp

/-! ## Classifier lemmas -/

/-- A successful single classification echoes the input text and maps the
predicted class to the fixed sentiment convention. -/
theorem predict_spec (m : PyModel) (t : String) (r : ClassifierResult)
    (h : NegaBotModel.predict m t = some r) :
    r.text = t ∧
    ((r.sentiment = "Positive" ∧ r.predicted_class = 0) ∨
     (r.sentiment = "Negative" ∧ r.predicted_class = 1)) := by
  unfold NegaBotModel.predict at h
  cases hm : m t with
  | none => rw [hm] at h; exact absurd h (by simp)
  | some out =>
    rw [hm] at h
    by_cases hlt : out.logit_pos < out.logit_neg
    · simp only [hlt, if_true, if_pos] at h
      obtain rfl := (Option.some.injEq _ _).mp h
      refine ⟨rfl, Or.inr ⟨by simp, by simp⟩⟩
    · simp only [hlt, if_false, if_neg] at h
      obtain rfl := (Option.some.injEq _ _).mp h
      refine ⟨rfl, Or.inl ⟨by simp, by simp⟩⟩

/-- Batch classification preserves the input texts, in order. -/
theorem batch_predict_texts (m : PyModel) :
    ∀ (ts : List String) (rs : List ClassifierResult),
      NegaBotModel.batch_predict m ts = some rs →
      rs.map (fun r => r.text) = ts := by
  intro ts
  induction ts with
  | nil =>
    intro rs h
    unfold NegaBotModel.batch_predict at h
    obtain rfl := (Option.some.injEq _ _).mp h
    rfl
  | cons t ts ih =>
    intro rs h
    unfold NegaBotModel.batch_predict at h
    cases hp : NegaBotModel.predict m t <;> rw [hp] at h
    · exact absurd h (by simp)
    · cases hb : NegaBotModel.batch_predict m ts <;> rw [hb] at h
      · exact absurd h (by simp)
      · obtain rfl := (Option.some.injEq _ _).mp h
        simp only [List.map_cons, List.cons.injEq]
        exact ⟨(predict_spec m t _ hp).1, ih _ hb⟩

/-- Every element of a successful batch classification is a successful
single classification of some text. -/
theorem batch_predict_mem (m : PyModel) :
    ∀ (ts : List String) (rs : List ClassifierResult),
      NegaBotModel.batch_predict m ts = some rs →
      ∀ r ∈ rs, ∃ t, NegaBotModel.predict m t = some r := by
  intro ts
  induction ts with
  | nil =>
    intro rs h
    unfold NegaBotModel.batch_predict at h
    obtain rfl := (Option.some.injEq _ _).mp h
    intro r hr
    exact absurd hr (by simp)
  | cons t ts ih =>
    intro rs h
    unfold NegaBotModel.batch_predict at h
    cases hp : NegaBotModel.predict m t <;> rw [hp] at h
    · exact absurd h (by simp)
    · cases hb : NegaBotModel.batch_predict m ts <;> rw [hb] at h
      · exact absurd h (by simp)
      · obtain rfl := (Option.some.injEq _ _).mp h
        intro r hr
        rcases List.mem_cons.mp hr with rfl | hr
        · exact ⟨t, hp⟩
        · exact ih _ hb r hr

/-! ## Store lemmas -/

/-- `log_prediction` appends exactly one row; when the logged sentiment is
one of the two classifier sentiments, the inferred `predicted_class` of
that row satisfies the class/sentiment invariant. -/
theorem log_prediction_drop (db : List PredictionRow) (text s : String)
    (conf : ℚ) (md : Option Meta) (now : String)
    (hs : s = "Positive" ∨ s = "Negative") :
    ((log_prediction db text s conf md now).drop db.length).all classInvRowB = true := by
  rcases hs with rfl | rfl
  · show ((db ++ [_]).drop db.length).all classInvRowB = true
    rw [List.drop_left]
    rfl
  · show ((db ++ [_]).drop db.length).all classInvRowB = true
    rw [List.drop_left]
    rfl

/-- The batch logging loop only appends, and every appended row satisfies
the class/sentiment invariant when all logged sentiments are classifier
sentiments. -/
theorem logAll_structure :
    ∀ (results : List ClassifierResult) (db : List PredictionRow)
      (md : Option Meta) (now : String),
      (∀ r ∈ results, r.sentiment = "Positive" ∨ r.sentiment = "Negative") →
      ∃ new, logAll db results md now = db ++ new ∧ new.all classInvRowB = true := by
  intro results
  induction results with
  | nil =>
    intro db md now _
    exact ⟨[], by simp [logAll], rfl⟩
  | cons r rs ih =>
    intro db md now hsent
    have hr := hsent r (List.mem_cons_self r rs)
    have hrow : ∃ row, log_prediction db r.text r.sentiment r.confidence md now = db ++ [row] ∧
        classInvRowB row = true := by
      rcases hr with hpos | hneg
      · refine ⟨_, rfl, ?_⟩
        simp only [hpos]
        rfl
      · refine ⟨_, rfl, ?_⟩
        simp only [hneg]
        rfl
    obtain ⟨row, hdb, hrowinv⟩ := hrow
    obtain ⟨new', hrec, hnewinv⟩ :=
      ih (db ++ [row]) md now (fun x hx => hsent x (List.mem_cons_of_mem r hx))
    refine ⟨row :: new', ?_, ?_⟩
    · show logAll (log_prediction db r.text r.sentiment r.confidence md now) rs md now = _
      rw [hdb, hrec, List.append_assoc]
      rfl
    · simp only [List.all_cons, hrowinv, hnewinv, Bool.and_self]

/-! ## C1 -/

/-- C1: while the model is not loaded, every valid single or batch
prediction request is answered with HTTP 500, not 503 — the
`HTTPException(503)` raised inside the `try` block is caught by the
catch-all `except Exception` and re-raised as a 500. The classifier is
not invoked and the store is unchanged. -/
theorem model_not_loaded_returns_500
    (db : List PredictionRow) (req : TweetRequest) (tweets : List String)
    (md : Option Meta) (now : String)
    (h1 : validateTweetRequest req = true)
    (h2 : validateBatchRequest tweets = true) :
    predict_endpoint none db req now = (500, none, db) ∧
    batch_endpoint none db tweets md now = (500, none, db) := by
  constructor
  · unfold predict_endpoint
    rw [h1]
    rfl
  · unfold batch_endpoint
    rw [h2]
    rfl

/-- C1, witness: a concrete valid request against the unloaded service. -/
theorem model_not_loaded_returns_500_witness :
    validateTweetRequest { text := "hello", metadata := none } = true ∧
    validateBatchRequest ["hi"] = true ∧
    (predict_endpoint none [] { text := "hello", metadata := none } "t0" = (500, none, []) ∧
     batch_endpoint none [] ["hi"] none "t0" = (500, none, [])) :=
  ⟨by decide, by decide,
   model_not_loaded_returns_500 [] { text := "hello", metadata := none } ["hi"] none "t0"
     (by decide) (by decide)⟩

/-! ## C10 -/

/-- C10: in the batch flow all items are classified before any record is
persisted; if classification of any item fails, the handler answers 500
and the store is left exactly as it was — no record of the batch is
appended, not even for items that classified successfully. -/
theorem batch_classifier_fault_leaves_store_unchanged
    (m : PyModel) (db : List PredictionRow) (tweets : List String)
    (md : Option Meta) (now : String)
    (hfail : NegaBotModel.batch_predict m tweets = none) :
    batch_predict_sentiment (some m) db tweets md now = (500, none, db) := by
  simp only [batch_predict_sentiment, hfail]

/-- C10, witness: a classifier that faults on every input, one-item batch. -/
theorem batch_classifier_fault_leaves_store_unchanged_witness :
    NegaBotModel.batch_predict (fun _ => none) ["a"] = none ∧
    batch_predict_sentiment (some (fun _ => none)) [] ["a"] none "t0" = (500, none, []) :=
  ⟨rfl, batch_classifier_fault_leaves_store_unchanged (fun _ => none) [] ["a"] none "t0" rfl⟩

/-! ## C3 -/

/-- C3, counterexample: a one-item batch whose only item is the empty
string passes pydantic validation (`tweets` has no per-item constraint),
is answered 200, and both the classifier and the store are reached — one
record is appended for the empty item. -/
theorem batch_with_empty_item_is_processed :
    validateBatchRequest [""] = true ∧
    (batch_endpoint (some demoModel) [] [""] none "t0").1 = 200 ∧
    ((batch_endpoint (some demoModel) [] [""] none "t0").2.2).length = 1 := by
  refine ⟨rfl, rfl, rfl⟩

/-- C3, amended: only the batch size is validated — a batch whose item
count is outside [1,50] is rejected with 422 with no classifier or store
access (the result is independent of the model and the store is returned
unchanged); per-item emptiness is not checked. -/
theorem batch_size_out_of_range_rejected
    (model : Option PyModel) (db : List PredictionRow) (tweets : List String)
    (md : Option Meta) (now : String)
    (hsize : tweets.length < 1 ∨ 50 < tweets.length) :
    batch_endpoint model db tweets md now = (422, none, db) := by
  have hv : validateBatchRequest tweets = false := by
    unfold validateBatchRequest
    rcases hsize with h | h <;> simp <;> omega
  unfold batch_endpoint
  rw [hv]
  rfl

/-- C3, witness: the empty batch is rejected with 422 for any model. -/
theorem batch_size_out_of_range_rejected_witness :
    (([] : List String).length < 1 ∨ 50 < ([] : List String).length) ∧
    batch_endpoint (some demoModel) [] [] none "t0" = (422, none, []) :=
  ⟨Or.inl (by decide),
   batch_size_out_of_range_rejected (some demoModel) [] [] none "t0" (Or.inl (by decide))⟩

/-! ## C4 -/

/-- C4, counterexample: on the empty store `GET /stats` answers 200, but
the percentage keys are absent from the response (`none`), not zero — the
empty-store branch of `get_prediction_stats` returns a dict without
`positive_percentage` and `negative_percentage`. -/
theorem empty_store_stats_missing_percentages :
    (get_prediction_stats (.ok [])).1 = 200 ∧
    (get_prediction_stats (.ok [])).2 = some (statsOf []) ∧
    (statsOf []).positive_percentage = none ∧
    (statsOf []).negative_percentage = none ∧
    (statsOf []).positive_percentage ≠ some 0 ∧
    (statsOf []).negative_percentage ≠ some 0 :=
  ⟨rfl, rfl, rfl, rfl, by decide, by decide⟩

/-- C4, amended: on the empty store `GET /stats` answers 200 with total 0,
both counts 0 and average confidence 0, plus a message field; the two
percentage fields are omitted from this response. -/
theorem empty_store_stats_zero_snapshot :
    get_prediction_stats (.ok []) =
      (200, some { total_predictions := 0
                   positive_count := 0
                   negative_count := 0
                   positive_percentage := none
                   negative_percentage := none
                   average_confidence := 0
                   message := some "No predictions found" }) := rfl

/-! ## C8 -/

/-- C8, counterexample: a store read fault on `GET /stats` is not surfaced
as a 500 — the concrete faulting fetch is answered 200 with the all-zero
snapshot. -/
theorem store_fault_stats_returns_200 :
    get_prediction_stats (.error "disk fault") = (200, some (statsOf [])) ∧
    (get_prediction_stats (.error "disk fault")).1 ≠ 500 :=
  ⟨rfl, by decide⟩

/-- C8, amended: every history read fault is swallowed inside the store
layer — `get_all_predictions` catches the exception and returns the empty
list, so `GET /stats` reports the empty snapshot with status 200 instead
of failing with 500. -/
theorem store_read_fault_swallowed (e : String) (limit : Option ℤ) :
    db_get_all_predictions (.error e) limit = .ok [] ∧
    get_prediction_stats (.error e) = (200, some (statsOf [])) :=
  ⟨rfl, rfl⟩

/-! ## C9 -/

/-- C9, counterexample: supplying the limit `0` does not bound the result
— `if limit:` treats `0` as falsy, the `LIMIT` clause is skipped, and a
one-row store yields one row, more than the supplied limit. -/
theorem limit_zero_returns_all_rows :
    (PredictionLogger.get_all_predictions [sampleRow] (some 0)).length = 1 ∧
    ¬ ((PredictionLogger.get_all_predictions [sampleRow] (some 0)).length ≤ 0) :=
  ⟨rfl, by decide⟩

/-- C9, amended: history reads are ordered newest first (`created_at`
descending) with and without a limit; a positive supplied limit bounds the
result length (limit `0` is treated as no limit); the sentiment-filtered
read returns only rows with the requested sentiment, newest first. -/
theorem history_reads_sorted_filtered_limited
    (db : List PredictionRow) (l : ℤ) (s : String)
    (hl : 0 < l) :
    List.Sorted newerFirst (PredictionLogger.get_all_predictions db none) ∧
    List.Sorted newerFirst (PredictionLogger.get_all_predictions db (some l)) ∧
    (PredictionLogger.get_all_predictions db (some l)).length ≤ l.toNat ∧
    List.Sorted newerFirst (PredictionLogger.get_predictions_by_sentiment db s) ∧
    (PredictionLogger.get_predictions_by_sentiment db s).all
      (fun r => r.sentiment == s) = true := by
  have hsorted : List.Sorted newerFirst (List.insertionSort newerFirst db) :=
    List.sorted_insertionSort newerFirst db
  have hlne : ¬ l = 0 := by omega
  have hlnn : ¬ l < 0 := by omega
  refine ⟨hsorted, ?_, ?_, ?_, ?_⟩
  · unfold PredictionLogger.get_all_predictions sqlLimit
    simp only [hlne, if_false, hlnn, ite_false]
    exact List.Pairwise.take hsorted
  · unfold PredictionLogger.get_all_predictions sqlLimit
    simp only [hlne, if_false, hlnn, ite_false]
    calc (List.take l.toNat (List.insertionSort newerFirst db)).length
        = min l.toNat (List.insertionSort newerFirst db).length := List.length_take _ _
      _ ≤ l.toNat := min_le_left _ _
  · exact List.sorted_insertionSort newerFirst _
  · unfold PredictionLogger.get_predictions_by_sentiment
    rw [List.all_eq_true]
    intro r hr
    have hmem : r ∈ db.filter (fun x => x.sentiment == s) :=
      (List.mem_insertionSort newerFirst).mp hr
    exact (List.mem_filter.mp hmem).2

/-- C9, witness: a two-row store read with limit 1 and filtered by
"Positive". -/
theorem history_reads_sorted_filtered_limited_witness :
    (0 : ℤ) < 1 ∧
    (List.Sorted newerFirst (PredictionLogger.get_all_predictions [sampleRow, sampleRow2] none) ∧
     List.Sorted newerFirst (PredictionLogger.get_all_predictions [sampleRow, sampleRow2] (some 1)) ∧
     (PredictionLogger.get_all_predictions [sampleRow, sampleRow2] (some 1)).length ≤ (1 : ℤ).toNat ∧
     List.Sorted newerFirst (PredictionLogger.get_predictions_by_sentiment [sampleRow, sampleRow2] "Positive") ∧
     (PredictionLogger.get_predictions_by_sentiment [sampleRow, sampleRow2] "Positive").all
       (fun r => r.sentiment == "Positive") = true) :=
  ⟨by decide, history_reads_sorted_filtered_limited [sampleRow, sampleRow2] 1 "Positive" (by decide)⟩

/-! ## C7 -/

/-- C7, counterexample: a /predict request carrying the empty-object
metadata payload. The payload is falsy, so `log_prediction` stores NULL,
and the later read returns `none` — not the empty object the caller
supplied. -/
theorem empty_object_metadata_not_roundtripped :
    (((predict_endpoint (some demoModel) [] { text := "hi", metadata := some [] } "t0").2.2).map
        (fun r : PredictionRow => r.metadata)) = [none] ∧
    ((PredictionLogger.get_all_predictions
        ((predict_endpoint (some demoModel) [] { text := "hi", metadata := some [] } "t0").2.2)
        none).map (fun r : PredictionRow => r.metadata)) = [none] ∧
    ((none : Option Meta) ≠ some []) :=
  ⟨rfl, rfl, by decide⟩

/-- C7, amended: every non-empty metadata payload is persisted unmodified
by the store append, and a later full read returns exactly the stored rows
(a permutation of the store), hence that same payload; the empty object,
being falsy, is stored as NULL like an absent payload. -/
theorem nonempty_metadata_roundtrip
    (db : List PredictionRow) (text s : String) (conf : ℚ) (md : Meta) (now : String)
    (hmd : md ≠ []) :
    ((log_prediction db text s conf (some md) now).drop db.length).map
      (fun r : PredictionRow => r.metadata) = [some md] ∧
    (PredictionLogger.get_all_predictions
        (log_prediction db text s conf (some md) now) none).Perm
      (log_prediction db text s conf (some md) now) := by
  constructor
  · show ((db ++ [_]).drop db.length).map (fun r : PredictionRow => r.metadata) = _
    rw [List.drop_left]
    simp [hmd]
  · exact List.perm_insertionSort newerFirst _

/-- C7, witness: a concrete one-entry payload round-trips through append
and read. -/
theorem nonempty_metadata_roundtrip_witness :
    ([("source", "test")] : Meta) ≠ [] ∧
    (((log_prediction [] "hi" "Positive" (1/2) (some [("source", "test")]) "t0").drop
        ([] : List PredictionRow).length).map (fun r : PredictionRow => r.metadata) = [some [("source", "test")]] ∧
     (PredictionLogger.get_all_predictions
         (log_prediction [] "hi" "Positive" (1/2) (some [("source", "test")]) "t0") none).Perm
       (log_prediction [] "hi" "Positive" (1/2) (some [("source", "test")]) "t0")) :=
  ⟨by decide,
   nonempty_metadata_roundtrip [] "hi" "Positive" (1/2) [("source", "test")] "t0" (by decide)⟩

/-! ## C5 -/

/-- C5: for a batch of N tweets, N in [1,50], whose classifications all
succeed, /batch_predict answers 200 with exactly N results whose texts
are the input tweets in input order, and `total_processed` = N. -/
theorem batch_results_match_inputs
    (m : PyModel) (db : List PredictionRow) (tweets : List String)
    (md : Option Meta) (now : String) (results : List ClassifierResult)
    (hn : 1 ≤ tweets.length ∧ tweets.length ≤ 50)
    (hok : NegaBotModel.batch_predict m tweets = some results) :
    (batch_endpoint (some m) db tweets md now).1 = 200 ∧
    ((batch_endpoint (some m) db tweets md now).2.1).map
      (fun b => b.results.map (fun r => r.text)) = some tweets ∧
    ((batch_endpoint (some m) db tweets md now).2.1).map
      (fun b => b.total_processed) = some tweets.length := by
  have hv : validateBatchRequest tweets = true := by
    unfold validateBatchRequest
    simp only [Bool.and_eq_true, decide_eq_true_eq]
    omega
  have htexts : results.map (fun r => r.text) = tweets :=
    batch_predict_texts m tweets results hok
  have hlen : results.length = tweets.length := by
    rw [← htexts, List.length_map]
  have hep : batch_endpoint (some m) db tweets md now =
      (200,
       some { results := results.map (fun r => mkTweetResponse r now)
              total_processed := (results.map (fun r => mkTweetResponse r now)).length
              timestamp := now },
       logAll db results md now) := by
    unfold batch_endpoint
    rw [hv]
    simp only [batch_predict_sentiment, hok]
    exact if_pos trivial
  rw [hep]
  refine ⟨rfl, ?_, ?_⟩
  · show some ((results.map (fun r => mkTweetResponse r now)).map (fun r => r.text)) = some tweets
    rw [List.map_map]
    exact congrArg some htexts
  · show some ((results.map (fun r => mkTweetResponse r now)).length) = some tweets.length
    rw [List.length_map, hlen]

/-- C5, witness: a concrete two-item batch through the sample classifier. -/
theorem batch_results_match_inputs_witness :
    (1 ≤ (["good", "bad"] : List String).length ∧ (["good", "bad"] : List String).length ≤ 50) ∧
    NegaBotModel.batch_predict demoModel ["good", "bad"] =
      some ((NegaBotModel.batch_predict demoModel ["good", "bad"]).getD []) ∧
    ((batch_endpoint (some demoModel) [] ["good", "bad"] none "t0").1 = 200 ∧
     ((batch_endpoint (some demoModel) [] ["good", "bad"] none "t0").2.1).map
       (fun b => b.results.map (fun r => r.text)) = some ["good", "bad"] ∧
     ((batch_endpoint (some demoModel) [] ["good", "bad"] none "t0").2.1).map
       (fun b => b.total_processed) = some (["good", "bad"] : List String).length) :=
  ⟨⟨by decide, by decide⟩, rfl,
   batch_results_match_inputs demoModel [] ["good", "bad"] none "t0"
     ((NegaBotModel.batch_predict demoModel ["good", "bad"]).getD [])
     ⟨by decide, by decide⟩ rfl⟩

/-! ## Handler case equations -/

theorem predict_sentiment_no_model (db : List PredictionRow) (req : TweetRequest)
    (now : String) : predict_sentiment none db req now = (500, none, db) := rfl

theorem predict_sentiment_fault (m : PyModel) (db : List PredictionRow)
    (req : TweetRequest) (now : String)
    (hp : NegaBotModel.predict m req.text = none) :
    predict_sentiment (some m) db req now = (500, none, db) := by
  simp only [predict_sentiment, hp]

theorem predict_sentiment_ok (m : PyModel) (db : List PredictionRow)
    (req : TweetRequest) (now : String) (result : ClassifierResult)
    (hp : NegaBotModel.predict m req.text = some result) :
    predict_sentiment (some m) db req now =
      (200, some (mkTweetResponse result now),
       log_prediction db req.text result.sentiment result.confidence req.metadata now) := by
  simp only [predict_sentiment, hp]

theorem batch_sentiment_no_model (db : List PredictionRow) (tweets : List String)
    (md : Option Meta) (now : String) :
    batch_predict_sentiment none db tweets md now = (500, none, db) := rfl

theorem batch_sentiment_fault (m : PyModel) (db : List PredictionRow)
    (tweets : List String) (md : Option Meta) (now : String)
    (hb : NegaBotModel.batch_predict m tweets = none) :
    batch_predict_sentiment (some m) db tweets md now = (500, none, db) := by
  simp only [batch_predict_sentiment, hb]

theorem batch_sentiment_ok (m : PyModel) (db : List PredictionRow)
    (tweets : List String) (md : Option Meta) (now : String)
    (results : List ClassifierResult)
    (hb : NegaBotModel.batch_predict m tweets = some results) :
    batch_predict_sentiment (some m) db tweets md now =
      (200,
       some { results := results.map (fun r => mkTweetResponse r now)
              total_processed := (results.map (fun r => mkTweetResponse r now)).length
              timestamp := now },
       logAll db results md now) := by
  simp only [batch_predict_sentiment, hb]

theorem predict_endpoint_invalid (model : Option PyModel) (db : List PredictionRow)
    (req : TweetRequest) (now : String) (hv : ¬ validateTweetRequest req = true) :
    predict_endpoint model db req now = (422, none, db) := by
  unfold predict_endpoint
  rw [if_neg hv]

theorem predict_endpoint_valid (model : Option PyModel) (db : List PredictionRow)
    (req : TweetRequest) (now : String) (hv : validateTweetRequest req = true) :
    predict_endpoint model db req now = predict_sentiment model db req now := by
  unfold predict_endpoint
  rw [if_pos hv]

theorem batch_endpoint_invalid (model : Option PyModel) (db : List PredictionRow)
    (tweets : List String) (md : Option Meta) (now : String)
    (hv : ¬ validateBatchRequest tweets = true) :
    batch_endpoint model db tweets md now = (422, none, db) := by
  unfold batch_endpoint
  rw [if_neg hv]

theorem batch_endpoint_valid (model : Option PyModel) (db : List PredictionRow)
    (tweets : List String) (md : Option Meta) (now : String)
    (hv : validateBatchRequest tweets = true) :
    batch_endpoint model db tweets md now = batch_predict_sentiment model db tweets md now := by
  unfold batch_endpoint
  rw [if_pos hv]

/-- The store dropped past its own length is empty, so vacuously all-good. -/
theorem drop_self_all (db : List PredictionRow) :
    (db.drop db.length).all classInvRowB = true := by
  rw [List.drop_length]
  rfl

/-- A classifier result satisfying the sentiment convention yields a
response satisfying the class/sentiment invariant. -/
theorem classInvRespB_mkTweetResponse (r : ClassifierResult) (now : String)
    (h : (r.sentiment = "Positive" ∧ r.predicted_class = 0) ∨
         (r.sentiment = "Negative" ∧ r.predicted_class = 1)) :
    classInvRespB (mkTweetResponse r now) = true := by
  obtain ⟨h1, h2⟩ | ⟨h1, h2⟩ := h <;>
    simp [classInvRespB, mkTweetResponse, h1, h2]

/-! ## C2 -/

/-- C2: for every response produced by /predict or /batch_predict and for
every record the two endpoints write to the store,
`predicted_class == 0 ⇔ sentiment == "Positive"` and
`predicted_class == 1 ⇔ sentiment == "Negative"` (the records written by
a call are the rows of the resulting store past the initial store's
length). -/
theorem predicted_class_sentiment_invariant
    (model : Option PyModel) (db : List PredictionRow) (req : TweetRequest)
    (tweets : List String) (md : Option Meta) (now : String) :
    ((predict_endpoint model db req now).2.1).all classInvRespB = true ∧
    (((predict_endpoint model db req now).2.2).drop db.length).all classInvRowB = true ∧
    ((batch_endpoint model db tweets md now).2.1).all
      (fun b => b.results.all classInvRespB) = true ∧
    (((batch_endpoint model db tweets md now).2.2).drop db.length).all classInvRowB = true := by
  have hpred : ((predict_endpoint model db req now).2.1).all classInvRespB = true ∧
      (((predict_endpoint model db req now).2.2).drop db.length).all classInvRowB = true := by
    by_cases hv : validateTweetRequest req = true
    · rw [predict_endpoint_valid model db req now hv]
      cases model with
      | none =>
        rw [predict_sentiment_no_model]
        exact ⟨rfl, drop_self_all db⟩
      | some m =>
        cases hp : NegaBotModel.predict m req.text with
        | none =>
          rw [predict_sentiment_fault m db req now hp]
          exact ⟨rfl, drop_self_all db⟩
        | some result =>
          rw [predict_sentiment_ok m db req now result hp]
          obtain ⟨-, hs⟩ := predict_spec m req.text result hp
          refine ⟨?_, ?_⟩
          · show classInvRespB (mkTweetResponse result now) = true
            exact classInvRespB_mkTweetResponse result now hs
          · exact log_prediction_drop db req.text result.sentiment result.confidence
              req.metadata now (hs.imp And.left And.left)
    · rw [predict_endpoint_invalid model db req now hv]
      exact ⟨rfl, drop_self_all db⟩
  have hbatch : ((batch_endpoint model db tweets md now).2.1).all
      (fun b => b.results.all classInvRespB) = true ∧
      (((batch_endpoint model db tweets md now).2.2).drop db.length).all classInvRowB = true := by
    by_cases hv : validateBatchRequest tweets = true
    · rw [batch_endpoint_valid model db tweets md now hv]
      cases model with
      | none =>
        rw [batch_sentiment_no_model]
        exact ⟨rfl, drop_self_all db⟩
      | some m =>
        cases hb : NegaBotModel.batch_predict m tweets with
        | none =>
          rw [batch_sentiment_fault m db tweets md now hb]
          exact ⟨rfl, drop_self_all db⟩
        | some results =>
          rw [batch_sentiment_ok m db tweets md now results hb]
          have hsents : ∀ r ∈ results, r.sentiment = "Positive" ∨ r.sentiment = "Negative" := by
            intro r hr
            obtain ⟨t, ht⟩ := batch_predict_mem m tweets results hb r hr
            exact ((predict_spec m t r ht).2).imp And.left And.left
          refine ⟨?_, ?_⟩
          · show (results.map (fun r => mkTweetResponse r now)).all classInvRespB = true
            rw [List.all_eq_true]
            intro x hx
            obtain ⟨r, hr, rfl⟩ := List.mem_map.mp hx
            exact classInvRespB_mkTweetResponse r now ((predict_spec m _ r
              (batch_predict_mem m tweets results hb r hr).choose_spec).2)
          · obtain ⟨new, heq, hinv⟩ := logAll_structure results db md now hsents
            show ((logAll db results md now).drop db.length).all classInvRowB = true
            rw [heq, List.drop_left]
            exact hinv
    · rw [batch_endpoint_invalid model db tweets md now hv]
      exact ⟨rfl, drop_self_all db⟩
  exact ⟨hpred.1, hpred.2, hbatch.1, hbatch.2⟩

/-! ## C6 -/

/-- C6: on a non-empty history the stats snapshot satisfies
`positive_count + negative_count = total`, each percentage equals the
count over the total times 100 rounded to 2 decimals, the two percentages
sum to 100 within 0.1, and the average confidence is the arithmetic mean
of the stored confidences rounded to 4 decimals. -/
theorem stats_snapshot_formulas (predictions : List PredictionRow)
    (hne : predictions ≠ []) :
    (statsOf predictions).total_predictions = predictions.length ∧
    (statsOf predictions).positive_count + (statsOf predictions).negative_count =
      predictions.length ∧
    (statsOf predictions).positive_percentage =
      some (pyRound (((predictions.filter (fun p => p.sentiment == "Positive")).length : ℚ) /
        (predictions.length : ℚ) * 100) 2) ∧
    (statsOf predictions).negative_percentage =
      some (pyRound (((predictions.length -
          (predictions.filter (fun p => p.sentiment == "Positive")).length : ℕ) : ℚ) /
        (predictions.length : ℚ) * 100) 2) ∧
    |pyRound ((((predictions.filter (fun p => p.sentiment == "Positive")).length : ℚ)) /
        (predictions.length : ℚ) * 100) 2 +
      pyRound (((predictions.length -
          (predictions.filter (fun p => p.sentiment == "Positive")).length : ℕ) : ℚ) /
        (predictions.length : ℚ) * 100) 2 - 100| ≤ 1/10 ∧
    (statsOf predictions).average_confidence =
      pyRound (((predictions.map (fun p => p.confidence)).sum) / (predictions.length : ℚ)) 4 := by
  have hempty : predictions.isEmpty = false := by
    cases predictions with
    | nil => exact absurd rfl hne
    | cons a l => rfl
  have heq : statsOf predictions =
      { total_predictions := predictions.length
        positive_count := (predictions.filter (fun p => p.sentiment == "Positive")).length
        negative_count := predictions.length -
          (predictions.filter (fun p => p.sentiment == "Positive")).length
        positive_percentage :=
          some (pyRound (((predictions.filter (fun p => p.sentiment == "Positive")).length : ℚ) /
            (predictions.length : ℚ) * 100) 2)
        negative_percentage :=
          some (pyRound (((predictions.length -
              (predictions.filter (fun p => p.sentiment == "Positive")).length : ℕ) : ℚ) /
            (predictions.length : ℚ) * 100) 2)
        average_confidence :=
          pyRound (((predictions.map (fun p => p.confidence)).sum) / (predictions.length : ℚ)) 4
        message := none } := by
    unfold statsOf
    rw [hempty]
    rfl
  have hPT : (predictions.filter (fun p => p.sentiment == "Positive")).length ≤
      predictions.length := List.length_filter_le _ _
  have hT0 : (0 : ℚ) < (predictions.length : ℚ) := by
    have : 0 < predictions.length := List.length_pos.mpr hne
    exact_mod_cast this
  have habs : |pyRound ((((predictions.filter (fun p => p.sentiment == "Positive")).length : ℚ)) /
        (predictions.length : ℚ) * 100) 2 +
      pyRound (((predictions.length -
          (predictions.filter (fun p => p.sentiment == "Positive")).length : ℕ) : ℚ) /
        (predictions.length : ℚ) * 100) 2 - 100| ≤ 1/10 := by
    set T := predictions.length with hT
    set P := (predictions.filter (fun p => p.sentiment == "Positive")).length with hP
    have hcast : ((T - P : ℕ) : ℚ) = (T : ℚ) - (P : ℚ) := Nat.cast_sub hPT
    set a : ℚ := (P : ℚ) / (T : ℚ) * 100 with ha
    set b : ℚ := ((T - P : ℕ) : ℚ) / (T : ℚ) * 100 with hb
    have hab : a + b = 100 := by
      rw [ha, hb, hcast]
      field_simp
      ring
    have h1 : |pyRound a 2 - a| ≤ 1/200 := by
      have := abs_pyRound_sub_le a 2
      norm_num at this
      exact this
    have h2 : |pyRound b 2 - b| ≤ 1/200 := by
      have := abs_pyRound_sub_le b 2
      norm_num at this
      exact this
    have hsum : pyRound a 2 + pyRound b 2 - 100 = (pyRound a 2 - a) + (pyRound b 2 - b) := by
      rw [← hab]
      ring
    calc |pyRound a 2 + pyRound b 2 - 100|
        = |(pyRound a 2 - a) + (pyRound b 2 - b)| := by rw [hsum]
      _ ≤ |pyRound a 2 - a| + |pyRound b 2 - b| := abs_add _ _
      _ ≤ 1/10 := by linarith
  rw [heq]
  refine ⟨rfl, ?_, rfl, rfl, habs, rfl⟩
  show (predictions.filter (fun p => p.sentiment == "Positive")).length +
    (predictions.length - (predictions.filter (fun p => p.sentiment == "Positive")).length) =
    predictions.length
  omega

/-- C6, witness: the snapshot of a concrete two-row history, one positive
row with confidence 1/2 and one negative row with confidence 3/4. -/
theorem stats_snapshot_formulas_witness :
    ([sampleRow, sampleRow2] : List PredictionRow) ≠ [] ∧
    ((statsOf [sampleRow, sampleRow2]).total_predictions =
        ([sampleRow, sampleRow2] : List PredictionRow).length ∧
     (statsOf [sampleRow, sampleRow2]).positive_count +
        (statsOf [sampleRow, sampleRow2]).negative_count =
        ([sampleRow, sampleRow2] : List PredictionRow).length ∧
     (statsOf [sampleRow, sampleRow2]).positive_percentage =
       some (pyRound ((((
         ([sampleRow, sampleRow2] : List PredictionRow).filter
           (fun p => p.sentiment == "Positive")).length : ℚ)) /
         (([sampleRow, sampleRow2] : List PredictionRow).length : ℚ) * 100) 2) ∧
     (statsOf [sampleRow, sampleRow2]).negative_percentage =
       some (pyRound (((([sampleRow, sampleRow2] : List PredictionRow).length -
           (([sampleRow, sampleRow2] : List PredictionRow).filter
             (fun p => p.sentiment == "Positive")).length : ℕ) : ℚ) /
         (([sampleRow, sampleRow2] : List PredictionRow).length : ℚ) * 100) 2) ∧
     |pyRound ((((([sampleRow, sampleRow2] : List PredictionRow).filter
           (fun p => p.sentiment == "Positive")).length : ℚ)) /
         (([sampleRow, sampleRow2] : List PredictionRow).length : ℚ) * 100) 2 +
       pyRound (((([sampleRow, sampleRow2] : List PredictionRow).length -
           (([sampleRow, sampleRow2] : List PredictionRow).filter
             (fun p => p.sentiment == "Positive")).length : ℕ) : ℚ) /
         (([sampleRow, sampleRow2] : List PredictionRow).length : ℚ) * 100) 2 - 100| ≤ 1/10 ∧
     (statsOf [sampleRow, sampleRow2]).average_confidence =
       pyRound (((([sampleRow, sampleRow2] : List PredictionRow).map
           (fun p => p.confidence)).sum) /
         (([sampleRow, sampleRow2] : List PredictionRow).length : ℚ)) 4) :=
  ⟨by decide, stats_snapshot_formulas [sampleRow, sampleRow2] (by decide)⟩
